import Mathlib

/-!
Verification development for the chzzk-streamlink-auto-recorder repository.

The repository contains three near-duplicate variants of the same recorder:
`src/chzzk-recorder.py` (class-based script), `src/callisto.py` (plain
script with module-level globals), and `src/hosting.py` (class-based with a
Flask dashboard; its `ChzzkRecorder` additionally keeps a `recording_info`
dict and exposes `get_status` / `stop_recording`).  The poll loop
(`check_stream`), the status query (`get_live_info`), the launch retry loop
(`handle_live_start`), the offline handler (`handle_live_end`) and the
signal handler are line-for-line identical across the variants except that
`hosting.py` additionally maintains `recording_info`.  We embed the
`hosting.py` variant (the superset); every theorem about the shared logic
therefore applies to all three variants.

Modelling conventions:
  * Machine effects (subprocess calls, sleeps, logging, `sys.exit`) are
    recorded as an explicit `RecAction` trace returned alongside the new state.
  * The outside world (HTTP response, Popen success, process liveness,
    wall-clock time, pid) enters each function as an explicit argument.
  * Python `None` becomes `Option.none`; the mutable instance attributes of
    `ChzzkRecorder` become the fields of `RecState`.
-/

/-- String literal `'OPEN'` used by the source for the live status. -/
def openStatus : String := "OPEN"

/-- String literal `'recording'` stored in `recording_info['status']`. -/
def recordingStr : String := "recording"

/-- String literal `'completed'` stored in `recording_info['status']`. -/
def completedStr : String := "completed"

/-- String literal `'failed'` stored in `recording_info['status']`. -/
def failedStr : String := "failed"

/-- String literal `'stopped'` stored in `recording_info['status']`. -/
def stoppedStr : String := "stopped"

/-- String literal `'idle'`, the `get_status` default for a missing
`recording_info['status']` key. -/
def idleStr : String := "idle"

/-- Configuration read from the environment in `_load_environment_vars`
(`hosting.py` lines 63-70): `CHECK_INTERVAL` (default 60) and
`RETRY_COUNT` (default 3).  Channel id, cookies and the record directory
do not influence the control flow modelled here. -/
structure Config where
  check_interval : Nat
  retry_count_max : Nat
deriving DecidableEq, Repr

/-- The default configuration values of the source. -/
def defaultConfig : Config :=
  { check_interval := 60, retry_count_max := 3 }

/-- The `content` object of a successful, parseable API response
(`hosting.py` lines 134-143).  Fields hold the results of the source's
`.get` calls with their defaults already applied: `status` is
`content.get('status')` (`none` for a missing or null key); `liveTitle`
holds `content.get('liveTitle', 'Unknown Title')` (`none` only for an
explicit JSON null); `channelName` holds
`content.get('channel', {}).get('channelName', 'UnknownChannel')`
(likewise). -/
structure ApiContent where
  status : Option String
  liveTitle : Option String
  channelName : Option String
deriving DecidableEq, Repr

/-- Outcome of the `requests.get` call in `get_live_info` (`hosting.py`
line 131).  `requestError` is a raised `requests.exceptions.RequestException`
(connection failure, timeout, ...).  `response code body` is a returned
response with HTTP status `code`; `body = none` means `response.json()`
raises (parse failure), `body = some none` means the parsed JSON's
`content` field is `None`, and `body = some (some c)` is a proper content
object. -/
inductive ApiResponse where
  | requestError : ApiResponse
  | response : Nat → Option (Option ApiContent) → ApiResponse
deriving DecidableEq, Repr

/-- `resp` is a transient query failure: a raised request exception, a
non-success HTTP status (`raise_for_status` raises for codes ≥ 400), or a
JSON parse failure. -/
def isQueryFailure : ApiResponse → Prop
  | ApiResponse.requestError => True
  | ApiResponse.response code body => 400 ≤ code ∨ body = none

instance : DecidablePred isQueryFailure := fun r => by
  cases r with
  | requestError => exact isTrue trivial
  | response code body => exact inferInstanceAs (Decidable (400 ≤ code ∨ body = none))

/-- `get_live_info` (`hosting.py` lines 128-152; identical in
`chzzk-recorder.py` 123-147 and `callisto.py` 96-120).  The `try` body
performs the GET (a raised `RequestException` is caught and yields
`(None, None, None)`), calls `raise_for_status` (an HTTP error ≥ 400 is a
`RequestException`, same handler), parses JSON (a parse error falls into
the generic `except Exception`, same result), returns `(None, None, None)`
when `content` is `None`, and otherwise returns the status, title and
channel name extracted from `content`. -/
def get_live_info : ApiResponse → Option String × Option String × Option String
  | ApiResponse.requestError => (none, none, none)
  | ApiResponse.response code body =>
    if 400 ≤ code then (none, none, none)
    else
      match body with
      | none => (none, none, none)
      | some none => (none, none, none)
      | some (some c) => (c.status, c.liveTitle, c.channelName)

/-- The `recording_info` dict maintained by `hosting.py`'s recorder
(fields written at lines 166-172, 212-224, 301-302).  Each field is
`none` while its key is absent (the dict starts empty, line 42). -/
structure RecordingInfo where
  title : Option String
  channel_name : Option String
  start_time : Option Nat
  end_time : Option Nat
  status : Option String
  errorText : Option String
deriving DecidableEq, Repr

/-- The empty `recording_info = {}` of `__init__` (`hosting.py` line 42). -/
def emptyRecordingInfo : RecordingInfo :=
  { title := none, channel_name := none, start_time := none,
    end_time := none, status := none, errorText := none }

/-- The mutable instance state of `ChzzkRecorder` (`hosting.py` lines
38-42): the current recording `subprocess.Popen` (modelled by its pid),
the shutdown flag, the last observed poll status, the consecutive-error
counter and the `recording_info` dict. -/
structure RecState where
  current_recording_process : Option Nat
  shutdown_flag : Bool
  last_status : Option String
  retry_count : Nat
  recording_info : RecordingInfo
deriving DecidableEq, Repr

/-- The state right after `__init__`. -/
def initState : RecState :=
  { current_recording_process := none, shutdown_flag := false,
    last_status := none, retry_count := 0,
    recording_info := emptyRecordingInfo }

/-- Observable machine effects of the recorder, recorded in order. -/
inductive RecAction where
  | liveStart : RecAction
  | launchAttempt : RecAction
  | startMonitor : RecAction
  | sleep : Nat → RecAction
  | waitForever : RecAction
  | waitTimeout : Nat → RecAction
  | terminate : RecAction
  | kill : RecAction
  | logWarn : RecAction
  | logError : RecAction
  | sysExit : Nat → RecAction
deriving DecidableEq, Repr

/-- `run_streamlink` (`hosting.py` lines 154-203; `chzzk-recorder.py`
149-189 and `callisto.py` 122-165 are identical minus `recording_info`).
The body first computes the output file name, then assigns
`self.recording_info` (title, channel name, start time, status
`'recording'`), then calls `subprocess.Popen`.  `popenOk` is whether the
`Popen` call succeeds (the launch-failure point); on success the handle
(pid) is stored in `current_recording_process` and returned, on failure
the `except` branch logs, clears `current_recording_process` and returns
`None` — `recording_info` keeps the values just assigned. -/
def run_streamlink (st : RecState) (title channel_name : Option String)
    (popenOk : Bool) (pid t : Nat) :
    Option Nat × RecState × List RecAction :=
  let info : RecordingInfo :=
    { title := title, channel_name := channel_name, start_time := some t,
      end_time := none, status := some recordingStr, errorText := none }
  if popenOk then
    (some pid,
     { st with recording_info := info, current_recording_process := some pid },
     [RecAction.launchAttempt])
  else
    (none,
     { st with recording_info := info, current_recording_process := none },
     [RecAction.launchAttempt, RecAction.logError])

/-- The `for attempt in range(self.retry_count_max)` loop of
`handle_live_start` (`hosting.py` lines 235-250).  `fuel` is the number
of remaining loop iterations (initially `retry_count_max`), `attempt` the
current index.  Each iteration calls `run_streamlink` with the outcome
`launch attempt`; a returned handle starts the monitor thread and breaks
out; `None` logs a warning and, when `attempt < retry_count_max - 1`,
sleeps 5 before the next iteration. -/
def launchRetryLoop (cfg : Config) (launch : Nat → Bool) (pid t : Nat)
    (title channel_name : Option String) :
    RecState → Nat → Nat → RecState × List RecAction
  | st, 0, _ => (st, [])
  | st, fuel+1, attempt =>
    match run_streamlink st title channel_name (launch attempt) pid t with
    | (some _, st1, acts) => (st1, acts ++ [RecAction.startMonitor])
    | (none, st1, acts) =>
      let acts1 := acts ++ [RecAction.logWarn]
      if attempt < cfg.retry_count_max - 1 then
        let r := launchRetryLoop cfg launch pid t title channel_name st1 fuel (attempt+1)
        (r.1, acts1 ++ [RecAction.sleep 5] ++ r.2)
      else
        let r := launchRetryLoop cfg launch pid t title channel_name st1 fuel (attempt+1)
        (r.1, acts1 ++ r.2)

/-- `handle_live_start` (`hosting.py` lines 228-250; identical in
`chzzk-recorder.py` 208-230 and inlined in `callisto.py` 195-216).  Logs
the live-start banner (recorded as the `liveStart` action) and runs the
launch retry loop. -/
def handle_live_start (cfg : Config) (st : RecState)
    (title channel_name : Option String) (launch : Nat → Bool)
    (pid t : Nat) : RecState × List RecAction :=
  let r := launchRetryLoop cfg launch pid t title channel_name st
             cfg.retry_count_max 0
  (r.1, RecAction.liveStart :: r.2)

/-- `handle_live_end` (`hosting.py` lines 252-260): if a recording
process is current, block on `wait()` (no timeout) and clear it. -/
def handle_live_end (st : RecState) : RecState × List RecAction :=
  match st.current_recording_process with
  | none => (st, [])
  | some _ =>
    ({ st with current_recording_process := none }, [RecAction.waitForever])

/-- `check_recording_status` (`hosting.py` lines 262-267): if a process
is current and `poll()` reports it exited (`procAlive = false`), log a
warning and clear it. -/
def check_recording_status (st : RecState) (procAlive : Bool) :
    RecState × List RecAction :=
  match st.current_recording_process with
  | none => (st, [])
  | some _ =>
    if procAlive then (st, [])
    else ({ st with current_recording_process := none }, [RecAction.logWarn])

/-- The environment of one exception-free poll-loop iteration: the API
response, the per-attempt `Popen` outcomes, the pid and wall-clock time a
successful launch would record, and whether the current process is still
running when `check_recording_status` polls it. -/
structure PollInput where
  resp : ApiResponse
  launch : Nat → Bool
  pid : Nat
  t : Nat
  procAlive : Bool

/-- Status component of the poll input's query result. -/
def liveStatusOf (inp : PollInput) : Option String :=
  (get_live_info inp.resp).1

/-- One event presented to the `while` loop of `check_stream`: either the
`try` body runs to completion on a poll (`poll`), or `KeyboardInterrupt`
is raised during the body, or some other exception is raised by the body
(modelled as raised before any state mutation of the iteration, e.g. from
`time.sleep`; `get_live_info` itself never raises). -/
inductive LoopEvent where
  | poll : PollInput → LoopEvent
  | keyboardInterrupt : LoopEvent
  | loopError : LoopEvent

/-- The `try` body of one `check_stream` iteration (`hosting.py` lines
309-328): query the live info; if the status is `'OPEN'`, fire
`handle_live_start` on a strict edge (`last_status != 'OPEN'`), run
`check_recording_status` and sleep 10; otherwise fire `handle_live_end`
on the falling edge and sleep `check_interval`; finally record
`last_status = status` and reset `retry_count = 0`. -/
def check_stream_iter (cfg : Config) (st : RecState) (inp : PollInput) :
    RecState × List RecAction :=
  let r := get_live_info inp.resp
  let stepResult :=
    if r.1 = some openStatus then
      let a :=
        if st.last_status ≠ some openStatus then
          handle_live_start cfg st r.2.1 r.2.2 inp.launch inp.pid inp.t
        else (st, [])
      let b := check_recording_status a.1 inp.procAlive
      (b.1, a.2 ++ b.2 ++ [RecAction.sleep 10])
    else
      let a :=
        if st.last_status = some openStatus then handle_live_end st
        else (st, [])
      (a.1, a.2 ++ [RecAction.sleep cfg.check_interval])
  ({ stepResult.1 with last_status := r.1, retry_count := 0 }, stepResult.2)

/-- One pass of the `while` loop body including the exception handlers
(`hosting.py` lines 308-342).  The third component is `true` when the
iteration executes `break` (a `KeyboardInterrupt`, or the fifth
consecutive error).  On a non-fatal error the handler increments
`retry_count`, logs and sleeps 30. -/
def check_stream_step (cfg : Config) (st : RecState) :
    LoopEvent → RecState × List RecAction × Bool
  | LoopEvent.poll inp =>
    let r := check_stream_iter cfg st inp
    (r.1, r.2, false)
  | LoopEvent.keyboardInterrupt => (st, [], true)
  | LoopEvent.loopError =>
    let st1 := { st with retry_count := st.retry_count + 1 }
    if 5 ≤ st1.retry_count then (st1, [RecAction.logError], true)
    else (st1, [RecAction.logError, RecAction.sleep 30], false)

/-- The `while not self.shutdown_flag` loop of `check_stream`, folded
over a finite list of iteration events.  The loop stops early either
because the flag is observed at the top of an iteration (third component
`false`: the `while` condition ended it) or because the body executed
`break` (third component `true`). -/
def check_stream_run (cfg : Config) :
    RecState → List LoopEvent → RecState × List RecAction × Bool
  | st, [] => (st, [], false)
  | st, ev :: evs =>
    if st.shutdown_flag then (st, [], false)
    else
      match check_stream_step cfg st ev with
      | (st1, acts, true) => (st1, acts, true)
      | (st1, acts, false) =>
        let r := check_stream_run cfg st1 evs
        (r.1, acts ++ r.2.1, r.2.2)

/-- `check_stream` (`hosting.py` lines 304-342): sets `retry_count = 0`
and enters the loop. -/
def check_stream (cfg : Config) (st : RecState) (evs : List LoopEvent) :
    RecState × List RecAction × Bool :=
  check_stream_run cfg { st with retry_count := 0 } evs

/-- How the recording process responds to a termination request:
`exitsWithinGrace` — `wait(timeout=10)` returns inside the grace period;
`timesOut` — `wait` raises `TimeoutExpired`; `raisesOther` — the
termination calls raise some other exception (modelled at the
`terminate()` call). -/
inductive ProcStopBehavior where
  | exitsWithinGrace : ProcStopBehavior
  | timesOut : ProcStopBehavior
  | raisesOther : ProcStopBehavior
deriving DecidableEq, Repr

/-- `_signal_handler` (`hosting.py` lines 84-99; identical in
`chzzk-recorder.py` 79-94 and `callisto.py` 51-67): sets
`shutdown_flag = True`; if a recording process is current, calls
`terminate()` and `wait(timeout=10)`, force-kills on `TimeoutExpired`,
logs any other exception; finally calls `sys.exit(0)`. -/
def signal_handler (st : RecState) (b : ProcStopBehavior) :
    RecState × List RecAction :=
  let st1 := { st with shutdown_flag := true }
  match st1.current_recording_process with
  | none => (st1, [RecAction.sysExit 0])
  | some _ =>
    match b with
    | ProcStopBehavior.exitsWithinGrace =>
      (st1, [RecAction.terminate, RecAction.waitTimeout 10,
             RecAction.sysExit 0])
    | ProcStopBehavior.timesOut =>
      (st1, [RecAction.terminate, RecAction.waitTimeout 10, RecAction.kill,
             RecAction.sysExit 0])
    | ProcStopBehavior.raisesOther =>
      (st1, [RecAction.terminate, RecAction.logError, RecAction.sysExit 0])

/-- `stop_recording` (`hosting.py` lines 286-302): if no process is
current the whole body is skipped; otherwise `terminate()`,
`wait(timeout=10)`, `kill()` on timeout, any other exception logged, and
the `finally` block clears the process and marks `recording_info` with
status `'stopped'` and an end time `t`. -/
def stop_recording (st : RecState) (b : ProcStopBehavior) (t : Nat) :
    RecState × List RecAction :=
  match st.current_recording_process with
  | none => (st, [])
  | some _ =>
    let acts :=
      match b with
      | ProcStopBehavior.exitsWithinGrace =>
        [RecAction.terminate, RecAction.waitTimeout 10]
      | ProcStopBehavior.timesOut =>
        [RecAction.terminate, RecAction.waitTimeout 10, RecAction.kill]
      | ProcStopBehavior.raisesOther =>
        [RecAction.terminate, RecAction.logError]
    ({ st with current_recording_process := none,
               recording_info := { st.recording_info with
                                   status := some stoppedStr,
                                   end_time := some t } }, acts)

/-- The dict returned by `get_status` (`hosting.py` lines 273-284). -/
structure StatusSnapshot where
  live_status : Option String
  live_title : Option String
  channel_name : Option String
  recording_status : String
  recording_info : RecordingInfo
  is_recording : Bool
  process_pid : Option Nat
  last_status : Option String
  retry_count : Nat
  shutdown_flag : Bool
deriving DecidableEq, Repr

/-- `get_status` (`hosting.py` lines 269-284): calls `get_live_info()` —
a fresh HTTP query whose outcome is the `resp` argument — and assembles
the snapshot from its result and the instance state.  The body assigns no
instance attribute, so the state is returned unchanged. -/
def get_status (st : RecState) (resp : ApiResponse) :
    StatusSnapshot × RecState :=
  let r := get_live_info resp
  ({ live_status := r.1, live_title := r.2.1, channel_name := r.2.2,
     recording_status := st.recording_info.status.getD idleStr,
     recording_info := st.recording_info,
     is_recording := st.current_recording_process.isSome,
     process_pid := st.current_recording_process,
     last_status := st.last_status,
     retry_count := st.retry_count,
     shutdown_flag := st.shutdown_flag }, st)

/-- Exit code of `start()` (`hosting.py` lines 344-363): `sys.exit(1)`
when `check_dependencies` fails; `sys.exit(1)` when `check_stream` raises
an exception; otherwise `check_stream` returns (including after a fatal
`break`) and the program finishes with exit code 0. -/
def start_exit_code (depsOk : Bool) (checkStreamRaised : Bool) : Nat :=
  if depsOk = false then 1 else if checkStreamRaised then 1 else 0

/-- Number of strict non-Live → Live edges in a status sequence, given
the status of the previous poll. -/
def liveEdges : Option String → List (Option String) → Nat
  | _, [] => 0
  | prev, s :: rest =>
    (if s = some openStatus ∧ prev ≠ some openStatus then 1 else 0) +
      liveEdges s rest

/-- Status string `'CLOSE'` the API reports for an offline channel. -/
def closeStatus : String := "CLOSE"

/-- Sample live title used in concrete scenarios. -/
def sampleTitle : String := "T1"

/-- Sample channel name used in concrete scenarios. -/
def sampleChannel : String := "Ch1"

/-- A successful API response reporting the channel live. -/
def liveResp : ApiResponse :=
  ApiResponse.response 200 (some (some
    { status := some openStatus, liveTitle := some sampleTitle,
      channelName := some sampleChannel }))

/-- A successful API response reporting the channel offline. -/
def offlineResp : ApiResponse :=
  ApiResponse.response 200 (some (some
    { status := some closeStatus, liveTitle := some sampleTitle,
      channelName := some sampleChannel }))

/-- A poll iteration whose query yields `r`, with an always-succeeding
launcher and a healthy current process. -/
def pollWith (r : ApiResponse) : PollInput :=
  { resp := r, launch := fun _ => true, pid := 77, t := 5,
    procAlive := true }

/-- The poll inputs of Scenario A of the spec: poll results
`[Offline, Offline, Live, Live, Offline]` with an always-succeeding
launcher. -/
def pollSeqAInputs : List PollInput :=
  [pollWith offlineResp, pollWith offlineResp, pollWith liveResp,
   pollWith liveResp, pollWith offlineResp]

/-- Scenario A as loop events. -/
def pollSeqA : List LoopEvent :=
  pollSeqAInputs.map LoopEvent.poll

/-- Scenario B of the spec: `[Live]`, then three iterations whose body
raises, then `[Live]`. -/
def pollSeqB : List LoopEvent :=
  [LoopEvent.poll (pollWith liveResp), LoopEvent.loopError,
   LoopEvent.loopError, LoopEvent.loopError,
   LoopEvent.poll (pollWith liveResp)]

/-- Five consecutive transient status-query failures presented to the
poll loop. -/
def pollSeqFail5 : List LoopEvent :=
  [LoopEvent.poll (pollWith ApiResponse.requestError),
   LoopEvent.poll (pollWith ApiResponse.requestError),
   LoopEvent.poll (pollWith ApiResponse.requestError),
   LoopEvent.poll (pollWith ApiResponse.requestError),
   LoopEvent.poll (pollWith ApiResponse.requestError)]

/-- A recorder state in which a recording process (pid 42) is current. -/
def recordingState : RecState :=
  { initState with current_recording_process := some 42 }

/-- A recorder state whose previous poll observed the channel live. -/
def liveLastState : RecState :=
  { initState with last_status := some openStatus }

/-- A recorder state in which shutdown has been requested. -/
def flaggedState : RecState :=
  { initState with shutdown_flag := true }

/-- The launch trace the spec prescribes for an always-failing launcher
and `n` remaining attempts: each failed attempt is the `Popen` call
(`launchAttempt`), the `except` branch's log (`logError`) and the
retry-loop warning (`logWarn`), with a 5 time-unit sleep between
consecutive attempts and none after the last. -/
def retrySchedule : Nat → List RecAction
  | 0 => []
  | 1 => [RecAction.launchAttempt, RecAction.logError, RecAction.logWarn]
  | n+2 => [RecAction.launchAttempt, RecAction.logError, RecAction.logWarn,
            RecAction.sleep 5] ++ retrySchedule (n+1)

/-- Number of occurrences of action `a` in a trace. -/
def countA (a : RecAction) : List RecAction → Nat
  | [] => 0
  | b :: l => (if b = a then 1 else 0) + countA a l

theorem countA_append (a : RecAction) (l₁ l₂ : List RecAction) :
    countA a (l₁ ++ l₂) = countA a l₁ + countA a l₂ := by
  induction l₁ with
  | nil => simp [countA]
  | cons b l ih => simp [countA, ih, Nat.add_assoc]

theorem launchRetryLoop_liveStart (cfg : Config) (launch : Nat → Bool)
    (pid t : Nat) (title ch : Option String) (st : RecState)
    (fuel attempt : Nat) :
    countA RecAction.liveStart
      (launchRetryLoop cfg launch pid t title ch st fuel attempt).2 = 0 := by
  induction fuel generalizing st attempt with
  | zero => rfl
  | succ f ih =>
    unfold launchRetryLoop
    cases h : launch attempt <;>
      simp [run_streamlink, h, countA, countA_append, ih] <;>
      split <;> simp [countA, countA_append, ih]

theorem launchRetryLoop_shutdown_flag (cfg : Config) (launch : Nat → Bool)
    (pid t : Nat) (title ch : Option String) (st : RecState)
    (fuel attempt : Nat) :
    (launchRetryLoop cfg launch pid t title ch st fuel attempt).1.shutdown_flag
      = st.shutdown_flag := by
  induction fuel generalizing st attempt with
  | zero => rfl
  | succ f ih =>
    unfold launchRetryLoop
    cases h : launch attempt <;>
      simp [run_streamlink, h, ih] <;> split <;> simp [ih]

theorem handle_live_start_liveStart (cfg : Config) (st : RecState)
    (title ch : Option String) (launch : Nat → Bool) (pid t : Nat) :
    countA RecAction.liveStart
      (handle_live_start cfg st title ch launch pid t).2 = 1 := by
  unfold handle_live_start
  simp [countA, launchRetryLoop_liveStart]

theorem handle_live_start_shutdown_flag (cfg : Config) (st : RecState)
    (title ch : Option String) (launch : Nat → Bool) (pid t : Nat) :
    (handle_live_start cfg st title ch launch pid t).1.shutdown_flag
      = st.shutdown_flag := by
  unfold handle_live_start
  simp [launchRetryLoop_shutdown_flag]

theorem handle_live_end_liveStart (st : RecState) :
    countA RecAction.liveStart (handle_live_end st).2 = 0 := by
  unfold handle_live_end
  cases st.current_recording_process <;> rfl

theorem handle_live_end_shutdown_flag (st : RecState) :
    (handle_live_end st).1.shutdown_flag = st.shutdown_flag := by
  unfold handle_live_end
  cases st.current_recording_process <;> rfl

theorem check_recording_status_liveStart (st : RecState) (alive : Bool) :
    countA RecAction.liveStart (check_recording_status st alive).2 = 0 := by
  unfold check_recording_status
  cases st.current_recording_process with
  | none => rfl
  | some p => cases alive <;> rfl

theorem check_recording_status_shutdown_flag (st : RecState) (alive : Bool) :
    (check_recording_status st alive).1.shutdown_flag = st.shutdown_flag := by
  unfold check_recording_status
  cases st.current_recording_process with
  | none => rfl
  | some p => cases alive <;> rfl

theorem check_stream_iter_last_status (cfg : Config) (st : RecState)
    (inp : PollInput) :
    (check_stream_iter cfg st inp).1.last_status
      = (get_live_info inp.resp).1 := rfl

theorem check_stream_iter_retry_count (cfg : Config) (st : RecState)
    (inp : PollInput) :
    (check_stream_iter cfg st inp).1.retry_count = 0 := rfl

theorem check_stream_iter_shutdown_flag (cfg : Config) (st : RecState)
    (inp : PollInput) :
    (check_stream_iter cfg st inp).1.shutdown_flag = st.shutdown_flag := by
  by_cases hopen : (get_live_info inp.resp).1 = some openStatus <;>
    by_cases hlast : st.last_status = some openStatus <;>
      simp [check_stream_iter, hopen, hlast,
            check_recording_status_shutdown_flag,
            handle_live_start_shutdown_flag, handle_live_end_shutdown_flag]

theorem check_stream_iter_liveStart (cfg : Config) (st : RecState)
    (inp : PollInput) :
    countA RecAction.liveStart (check_stream_iter cfg st inp).2
      = (if (get_live_info inp.resp).1 = some openStatus ∧
            st.last_status ≠ some openStatus then 1 else 0) := by
  by_cases hopen : (get_live_info inp.resp).1 = some openStatus <;>
    by_cases hlast : st.last_status = some openStatus <;>
      simp [check_stream_iter, hopen, hlast, countA_append, countA,
            check_recording_status_liveStart, handle_live_start_liveStart,
            handle_live_end_liveStart, launchRetryLoop_liveStart]

theorem get_live_info_queryFailure (r : ApiResponse)
    (h : isQueryFailure r) : get_live_info r = (none, none, none) := by
  cases r with
  | requestError => rfl
  | response code body =>
    rcases h with h | h
    · simp [get_live_info, h]
    · subst h
      by_cases h4 : 400 ≤ code <;> simp [get_live_info, h4]

theorem retrySchedule_launchAttempt (n : Nat) :
    countA RecAction.launchAttempt (retrySchedule n) = n := by
  induction n using retrySchedule.induct with
  | case1 => rfl
  | case2 => rfl
  | case3 m ih =>
    simp [retrySchedule, countA, ih]
    omega

theorem retrySchedule_sleep5 (n : Nat) :
    countA (RecAction.sleep 5) (retrySchedule n) = n - 1 := by
  induction n using retrySchedule.induct with
  | case1 => rfl
  | case2 => rfl
  | case3 m ih =>
    simp [retrySchedule, countA, ih]
    omega

theorem retrySchedule_sysExit (n k : Nat) :
    countA (RecAction.sysExit k) (retrySchedule n) = 0 := by
  induction n using retrySchedule.induct with
  | case1 => rfl
  | case2 => rfl
  | case3 m ih => simp [retrySchedule, countA, ih]

theorem launchRetryLoop_allFail_trace (cfg : Config) (pid t : Nat)
    (title ch : Option String) (st : RecState) (fuel attempt : Nat)
    (hmax : attempt + fuel = cfg.retry_count_max) :
    (launchRetryLoop cfg (fun _ => false) pid t title ch st fuel attempt).2
      = retrySchedule fuel := by
  induction fuel generalizing st attempt with
  | zero => rfl
  | succ f ih =>
    unfold launchRetryLoop
    simp only [run_streamlink, Bool.false_eq_true, if_false]
    cases f with
    | zero =>
      have hge : ¬ attempt < cfg.retry_count_max - 1 := by omega
      simp [hge, launchRetryLoop, retrySchedule]
    | succ f2 =>
      have hlt : attempt < cfg.retry_count_max - 1 := by omega
      have := ih st (attempt + 1) (by omega)
      simp [hlt, retrySchedule]
      simp [ih _ (attempt + 1) (by omega)]

theorem launchRetryLoop_allFail_state (cfg : Config) (pid t : Nat)
    (title ch : Option String) (st : RecState) (fuel attempt : Nat)
    (hfuel : 1 ≤ fuel) :
    (launchRetryLoop cfg (fun _ => false) pid t title ch st fuel attempt).1
      = { st with current_recording_process := none,
                  recording_info :=
                    { title := title, channel_name := ch,
                      start_time := some t, end_time := none,
                      status := some recordingStr, errorText := none } } := by
  induction fuel generalizing st attempt with
  | zero => omega
  | succ f ih =>
    unfold launchRetryLoop
    simp only [run_streamlink, Bool.false_eq_true, if_false]
    cases f with
    | zero =>
      split <;> rfl
    | succ f2 =>
      split <;> rw [ih _ (attempt + 1) (by omega)]

theorem check_stream_run_poll_liveStart (cfg : Config) (st : RecState)
    (inps : List PollInput) (h : st.shutdown_flag = false) :
    countA RecAction.liveStart
      (check_stream_run cfg st (inps.map LoopEvent.poll)).2.1
      = liveEdges st.last_status (inps.map liveStatusOf) := by
  induction inps generalizing st with
  | nil => simp [check_stream_run, liveEdges, countA]
  | cons inp rest ih =>
    have hsh : (check_stream_iter cfg st inp).1.shutdown_flag = false := by
      rw [check_stream_iter_shutdown_flag]; exact h
    simp only [List.map_cons]
    unfold check_stream_run
    simp only [h, Bool.false_eq_true, if_false, check_stream_step]
    rw [countA_append, check_stream_iter_liveStart, ih _ hsh,
        check_stream_iter_last_status]
    simp [liveEdges, liveStatusOf, Nat.add_comm]

theorem liveEdges_append_open (prev : Option String)
    (l : List (Option String)) (hprev : prev ≠ some openStatus)
    (hl : ∀ s ∈ l, s ≠ some openStatus) :
    liveEdges prev (l ++ [some openStatus]) = 1 := by
  induction l generalizing prev with
  | nil => simp [liveEdges, hprev]
  | cons s rest ih =>
    have hs : s ≠ some openStatus := hl s (by simp)
    have hrest := ih s hs fun x hx => hl x (by simp [hx])
    simp [liveEdges, hs, hrest]

/-- C1: for every sequence of poll results, a session launch
(`handle_live_start`) is invoked only on a strict transition from a
non-Live previous poll status to Live and never when the previous poll
was already Live: the number of `handle_live_start` invocations recorded
in the loop's trace equals the number of strict non-Live → Live edges of
the observed status sequence (starting from the recorder's
`last_status`). -/
theorem C1_launch_only_on_live_edge (cfg : Config) (st : RecState)
    (inps : List PollInput) (h : st.shutdown_flag = false) :
    countA RecAction.liveStart
      (check_stream cfg st (inps.map LoopEvent.poll)).2.1
      = liveEdges st.last_status (inps.map liveStatusOf) := by
  unfold check_stream
  exact check_stream_run_poll_liveStart cfg _ inps h

/-- Witness for C1 at the spec's Scenario A: the poll sequence
`[Offline, Offline, Live, Live, Offline]` with an always-succeeding
launcher produces exactly one launch. -/
theorem C1_launch_only_on_live_edge_witness :
    initState.shutdown_flag = false ∧
    (countA RecAction.liveStart
        (check_stream defaultConfig initState
          (pollSeqAInputs.map LoopEvent.poll)).2.1
      = liveEdges initState.last_status (pollSeqAInputs.map liveStatusOf)) ∧
    liveEdges initState.last_status (pollSeqAInputs.map liveStatusOf) = 1 :=
  ⟨rfl, C1_launch_only_on_live_edge defaultConfig initState pollSeqAInputs rfl,
   by decide⟩

/-- C7: `retry_count` is reset to 0 at the end of every poll-loop
iteration that completes without an exception, regardless of the observed
status; in particular for Scenario B (`[Live]`, three consecutive body
exceptions, `[Live]`) the counter is 0 after the final poll and the loop
does not break fatally. -/
theorem C7_retry_counter_reset (cfg : Config) (st : RecState)
    (inp : PollInput) :
    (check_stream_iter cfg st inp).1.retry_count = 0 ∧
    (check_stream defaultConfig initState pollSeqB).1.retry_count = 0 ∧
    (check_stream defaultConfig initState pollSeqB).2.2 = false :=
  ⟨rfl, by decide, by decide⟩

/-- C8: `stop_recording` is idempotent: after one call the process slot
is empty, so a second call (whatever the process behaviour or clock then
is) returns the state unchanged and performs no action — no further
terminate or kill call and no change to `recording_info`. -/
theorem C8_stop_recording_idempotent (st : RecState)
    (b b2 : ProcStopBehavior) (t t2 : Nat) :
    stop_recording (stop_recording st b t).1 b2 t2
      = ((stop_recording st b t).1, []) := by
  rcases hc : st.current_recording_process with _ | p <;>
    cases b <;> simp [stop_recording, hc]

/-- C10: `get_live_info` is total over query outcomes — every network
error, non-success HTTP status or response-parsing failure returns
`(None, None, None)` (the embedding is a total function over all
`ApiResponse` constructors, so no failure escapes as an exception), which
is exactly the value returned for a channel with no live content, making
the two cases indistinguishable to the caller. -/
theorem C10_get_live_info_total_on_failure (r : ApiResponse)
    (h : isQueryFailure r) :
    get_live_info r = (none, none, none) ∧
    get_live_info r = get_live_info (ApiResponse.response 200 (some none)) := by
  have h0 := get_live_info_queryFailure r h
  exact ⟨h0, by rw [h0]; rfl⟩

/-- Witness for C10 at a concrete network error. -/
theorem C10_get_live_info_total_on_failure_witness :
    isQueryFailure ApiResponse.requestError ∧
    (get_live_info ApiResponse.requestError = (none, none, none) ∧
     get_live_info ApiResponse.requestError
       = get_live_info (ApiResponse.response 200 (some none))) :=
  ⟨trivial, C10_get_live_info_total_on_failure ApiResponse.requestError trivial⟩

/-- C2 counterexample: five consecutive transient status-query failures
(network errors) leave `retry_count` at 0, do not stop the loop, and
attempt no launch — contradicting the claim that each such failure
increments the counter and that the fifth stops the loop with exit
code 1. -/
theorem C2_counterexample_query_failures :
    (check_stream defaultConfig initState pollSeqFail5).1.retry_count = 0 ∧
    (check_stream defaultConfig initState pollSeqFail5).2.2 = false ∧
    countA RecAction.liveStart
      (check_stream defaultConfig initState pollSeqFail5).2.1 = 0 := by
  refine ⟨by decide, by decide, by decide⟩

/-- C2 (amended): a transient status-query failure is absorbed by
`get_live_info`, so the iteration completes normally with `retry_count`
reset to 0 and no launch; only an exception raised elsewhere in the loop
body increments the counter, the loop breaks exactly when the counter
reaches 5, such an iteration attempts no launch, and after the break the
process exits with code 0 (the `break` returns normally from
`check_stream`), not 1. -/
theorem C2_amended_error_counter (cfg : Config) (st : RecState)
    (inp : PollInput) (hfail : isQueryFailure inp.resp) :
    (check_stream_iter cfg st inp).1.retry_count = 0 ∧
    countA RecAction.liveStart (check_stream_iter cfg st inp).2 = 0 ∧
    (check_stream_step cfg st LoopEvent.loopError).1.retry_count
      = st.retry_count + 1 ∧
    ((check_stream_step cfg st LoopEvent.loopError).2.2 = true ↔
      5 ≤ st.retry_count + 1) ∧
    countA RecAction.liveStart
      (check_stream_step cfg st LoopEvent.loopError).2.1 = 0 ∧
    start_exit_code true false = 0 := by
  refine ⟨rfl, ?_, ?_, ?_, ?_, rfl⟩
  · rw [check_stream_iter_liveStart]
    simp [get_live_info_queryFailure inp.resp hfail]
  · by_cases h5 : 5 ≤ st.retry_count + 1 <;> simp [check_stream_step, h5]
  · by_cases h5 : 5 ≤ st.retry_count + 1 <;> simp [check_stream_step, h5]
  · by_cases h5 : 5 ≤ st.retry_count + 1 <;>
      simp [check_stream_step, h5, countA]

/-- Witness for the amended C2 at a concrete network error. -/
theorem C2_amended_error_counter_witness :
    isQueryFailure (pollWith ApiResponse.requestError).resp ∧
    ((check_stream_iter defaultConfig initState
        (pollWith ApiResponse.requestError)).1.retry_count = 0 ∧
     countA RecAction.liveStart
       (check_stream_iter defaultConfig initState
         (pollWith ApiResponse.requestError)).2 = 0 ∧
     (check_stream_step defaultConfig initState
        LoopEvent.loopError).1.retry_count = initState.retry_count + 1 ∧
     ((check_stream_step defaultConfig initState
         LoopEvent.loopError).2.2 = true ↔ 5 ≤ initState.retry_count + 1) ∧
     countA RecAction.liveStart
       (check_stream_step defaultConfig initState
         LoopEvent.loopError).2.1 = 0 ∧
     start_exit_code true false = 0) :=
  ⟨trivial,
   C2_amended_error_counter defaultConfig initState
     (pollWith ApiResponse.requestError) trivial⟩

/-- C9: when one poll observes the channel live, the next poll's status
query fails transiently, and (after any number of further non-Live
polls) a later poll observes it live again, a second launch occurs even
though the channel never reported Offline: the failed query yields status
`None`, which takes the offline branch and re-arms the live-edge
detector. -/
theorem C9_relaunch_after_query_failure (cfg : Config) (st : RecState)
    (i1 i2 : PollInput) (mid : List PollInput) (i3 : PollInput)
    (hsh : st.shutdown_flag = false)
    (hlast : st.last_status ≠ some openStatus)
    (h1 : liveStatusOf i1 = some openStatus)
    (h2 : isQueryFailure i2.resp)
    (hmid : ∀ j ∈ mid, liveStatusOf j ≠ some openStatus)
    (h3 : liveStatusOf i3 = some openStatus) :
    liveStatusOf i2 = none ∧
    countA RecAction.liveStart
      (check_stream cfg st
        ((i1 :: i2 :: (mid ++ [i3])).map LoopEvent.poll)).2.1 = 2 := by
  have h2n : liveStatusOf i2 = none := by
    unfold liveStatusOf
    rw [get_live_info_queryFailure i2.resp h2]
  refine ⟨h2n, ?_⟩
  have hmid2 : ∀ s ∈ mid.map liveStatusOf, s ≠ some openStatus := by
    intro s hs
    rcases List.mem_map.mp hs with ⟨j, hj, rfl⟩
    exact hmid j hj
  have hedge := liveEdges_append_open none (mid.map liveStatusOf)
    (by simp) hmid2
  unfold check_stream
  have hsh2 : ({ st with retry_count := 0 } : RecState).shutdown_flag = false :=
    hsh
  rw [check_stream_run_poll_liveStart cfg _ _ hsh2]
  simp [liveEdges, h1, h2n, h3, hlast, hedge]

/-- Witness for C9: live poll, network error, live poll — two launches. -/
theorem C9_relaunch_after_query_failure_witness :
    initState.shutdown_flag = false ∧
    initState.last_status ≠ some openStatus ∧
    liveStatusOf (pollWith liveResp) = some openStatus ∧
    isQueryFailure (pollWith ApiResponse.requestError).resp ∧
    (liveStatusOf (pollWith ApiResponse.requestError) = none ∧
     countA RecAction.liveStart
       (check_stream defaultConfig initState
         ((pollWith liveResp :: pollWith ApiResponse.requestError ::
           ([] ++ [pollWith liveResp])).map LoopEvent.poll)).2.1 = 2) :=
  ⟨rfl, by decide, by decide, trivial,
   C9_relaunch_after_query_failure defaultConfig initState
     (pollWith liveResp) (pollWith ApiResponse.requestError) []
     (pollWith liveResp) rfl (by decide) (by decide) trivial
     (by intro j hj; cases hj) (by decide)⟩

/-- C3 counterexample: after exhausting all launch retries with an
always-failing launcher, the session is not marked Failed —
`recording_info['status']` still holds the `'recording'` value assigned
at the top of each (failed) attempt. -/
theorem C3_counterexample_not_marked_failed :
    (handle_live_start defaultConfig initState (some sampleTitle)
        (some sampleChannel) (fun _ => false) 77 5).1.recording_info.status
      = some recordingStr ∧
    some recordingStr ≠ some failedStr :=
  ⟨by decide, by decide⟩

/-- C3 (amended): when every launch attempt fails on a Live edge,
exactly `retry_count_max` launch attempts are made with a sleep of 5
time-units between consecutive attempts and none after the last (the
trace is exactly `retrySchedule retry_count_max`), no `sys.exit` occurs
(the program is not terminated), and no further launch is attempted
until the next Live edge (a poll that is Live while `last_status` is
already Live fires no launch); however the session is not marked Failed:
`recording_info['status']` is left at `'recording'` with no process
current. -/
theorem C3_amended_launch_retry_exhaustion (cfg : Config)
    (st st2 : RecState) (title ch : Option String) (pid t : Nat)
    (inp : PollInput) (hmax : 1 ≤ cfg.retry_count_max)
    (hlast : st2.last_status = some openStatus) :
    (handle_live_start cfg st title ch (fun _ => false) pid t).2
      = RecAction.liveStart :: retrySchedule cfg.retry_count_max ∧
    countA RecAction.launchAttempt
      (handle_live_start cfg st title ch (fun _ => false) pid t).2
      = cfg.retry_count_max ∧
    countA (RecAction.sleep 5)
      (handle_live_start cfg st title ch (fun _ => false) pid t).2
      = cfg.retry_count_max - 1 ∧
    (∀ k, countA (RecAction.sysExit k)
      (handle_live_start cfg st title ch (fun _ => false) pid t).2 = 0) ∧
    (handle_live_start cfg st title ch
        (fun _ => false) pid t).1.current_recording_process = none ∧
    (handle_live_start cfg st title ch
        (fun _ => false) pid t).1.recording_info.status = some recordingStr ∧
    some recordingStr ≠ some failedStr ∧
    countA RecAction.liveStart (check_stream_iter cfg st2 inp).2 = 0 := by
  have htrace : (handle_live_start cfg st title ch (fun _ => false) pid t).2
      = RecAction.liveStart :: retrySchedule cfg.retry_count_max := by
    simp only [handle_live_start]
    rw [launchRetryLoop_allFail_trace cfg pid t title ch st
        cfg.retry_count_max 0 (by omega)]
  have hstate := launchRetryLoop_allFail_state cfg pid t title ch st
    cfg.retry_count_max 0 hmax
  refine ⟨htrace, ?_, ?_, ?_, ?_, ?_, by decide, ?_⟩
  · rw [htrace]
    simp [countA, retrySchedule_launchAttempt]
  · rw [htrace]
    simp [countA, retrySchedule_sleep5]
  · intro k
    rw [htrace]
    simp [countA, retrySchedule_sysExit]
  · simp only [handle_live_start]
    rw [hstate]
  · simp only [handle_live_start]
    rw [hstate]
  · rw [check_stream_iter_liveStart]
    simp [hlast]

/-- Witness for the amended C3 with the default configuration
(`retry_count_max = 3`). -/
theorem C3_amended_launch_retry_exhaustion_witness :
    1 ≤ defaultConfig.retry_count_max ∧
    liveLastState.last_status = some openStatus ∧
    ((handle_live_start defaultConfig initState (some sampleTitle)
        (some sampleChannel) (fun _ => false) 77 5).2
      = RecAction.liveStart :: retrySchedule defaultConfig.retry_count_max ∧
     countA RecAction.launchAttempt
       (handle_live_start defaultConfig initState (some sampleTitle)
         (some sampleChannel) (fun _ => false) 77 5).2
       = defaultConfig.retry_count_max ∧
     countA (RecAction.sleep 5)
       (handle_live_start defaultConfig initState (some sampleTitle)
         (some sampleChannel) (fun _ => false) 77 5).2
       = defaultConfig.retry_count_max - 1 ∧
     (∀ k, countA (RecAction.sysExit k)
       (handle_live_start defaultConfig initState (some sampleTitle)
         (some sampleChannel) (fun _ => false) 77 5).2 = 0) ∧
     (handle_live_start defaultConfig initState (some sampleTitle)
         (some sampleChannel)
         (fun _ => false) 77 5).1.current_recording_process = none ∧
     (handle_live_start defaultConfig initState (some sampleTitle)
         (some sampleChannel)
         (fun _ => false) 77 5).1.recording_info.status = some recordingStr ∧
     some recordingStr ≠ some failedStr ∧
     countA RecAction.liveStart
       (check_stream_iter defaultConfig liveLastState
         (pollWith liveResp)).2 = 0) :=
  ⟨by decide, rfl,
   C3_amended_launch_retry_exhaustion defaultConfig initState liveLastState
     (some sampleTitle) (some sampleChannel) 77 5 (pollWith liveResp)
     (by decide) rfl⟩

/-- C4 counterexample: a termination request does not only set the
shared shutdown flag — even with no recording current, the handler also
calls `sys.exit(0)` itself, so its effect trace is not empty. -/
theorem C4_counterexample_handler_exits :
    (signal_handler initState ProcStopBehavior.exitsWithinGrace).2
      = [RecAction.sysExit 0] ∧
    [RecAction.sysExit 0] ≠ ([] : List RecAction) :=
  ⟨rfl, by decide⟩

/-- C4 (amended): the termination handler sets the shutdown flag, and
the poll loop does observe the flag at the top of each iteration (with
the flag set, the loop performs no further work); but the handler does
not merely set the flag — it ends with a direct `sys.exit(0)` of its
own (after synchronously stopping any current recording), so shutdown
takes effect inside the handler rather than solely at the loop's next
flag check. -/
theorem C4_amended_cooperative_shutdown (st : RecState)
    (b : ProcStopBehavior) (cfg : Config) (evs : List LoopEvent)
    (h : st.shutdown_flag = true) :
    (signal_handler st b).1.shutdown_flag = true ∧
    (signal_handler st b).2.getLast? = some (RecAction.sysExit 0) ∧
    check_stream_run cfg st evs = (st, [], false) := by
  refine ⟨?_, ?_, ?_⟩
  · rcases hc : st.current_recording_process with _ | p <;>
      cases b <;> simp [signal_handler, hc]
  · rcases hc : st.current_recording_process with _ | p <;>
      cases b <;> simp [signal_handler, hc]
  · cases evs with
    | nil => rfl
    | cons e rest => simp [check_stream_run, h]

/-- Witness for the amended C4 at a state with shutdown requested. -/
theorem C4_amended_cooperative_shutdown_witness :
    flaggedState.shutdown_flag = true ∧
    ((signal_handler flaggedState ProcStopBehavior.timesOut).1.shutdown_flag
        = true ∧
     (signal_handler flaggedState ProcStopBehavior.timesOut).2.getLast?
        = some (RecAction.sysExit 0) ∧
     check_stream_run defaultConfig flaggedState pollSeqA
        = (flaggedState, [], false)) :=
  ⟨rfl, C4_amended_cooperative_shutdown flaggedState ProcStopBehavior.timesOut
     defaultConfig pollSeqA rfl⟩

/-- C5: if shutdown occurs while a recording process is current, the
handler stops it before the program exits: the first action is the
graceful `terminate()`, the last is `sys.exit(0)`; the handler waits up
to 10 time-units unless the termination calls raise; on timeout a
force-kill is issued; and an exception during termination is logged
while `sys.exit(0)` still runs (not propagated). -/
theorem C5_shutdown_stops_recording (st : RecState) (b : ProcStopBehavior)
    (pid : Nat) (h : st.current_recording_process = some pid) :
    (signal_handler st b).2.head? = some RecAction.terminate ∧
    (signal_handler st b).2.getLast? = some (RecAction.sysExit 0) ∧
    ((b = ProcStopBehavior.exitsWithinGrace ∨ b = ProcStopBehavior.timesOut) →
      RecAction.waitTimeout 10 ∈ (signal_handler st b).2) ∧
    (b = ProcStopBehavior.timesOut →
      RecAction.kill ∈ (signal_handler st b).2) ∧
    (b = ProcStopBehavior.raisesOther →
      RecAction.logError ∈ (signal_handler st b).2 ∧
      RecAction.sysExit 0 ∈ (signal_handler st b).2) := by
  cases b <;> simp [signal_handler, h]

/-- Witness for C5 at a state with a current recording whose process
ignores the grace period. -/
theorem C5_shutdown_stops_recording_witness :
    recordingState.current_recording_process = some 42 ∧
    ((signal_handler recordingState ProcStopBehavior.timesOut).2.head?
        = some RecAction.terminate ∧
     (signal_handler recordingState ProcStopBehavior.timesOut).2.getLast?
        = some (RecAction.sysExit 0) ∧
     ((ProcStopBehavior.timesOut = ProcStopBehavior.exitsWithinGrace ∨
       ProcStopBehavior.timesOut = ProcStopBehavior.timesOut) →
       RecAction.waitTimeout 10
         ∈ (signal_handler recordingState ProcStopBehavior.timesOut).2) ∧
     (ProcStopBehavior.timesOut = ProcStopBehavior.timesOut →
       RecAction.kill
         ∈ (signal_handler recordingState ProcStopBehavior.timesOut).2) ∧
     (ProcStopBehavior.timesOut = ProcStopBehavior.raisesOther →
       RecAction.logError
         ∈ (signal_handler recordingState ProcStopBehavior.timesOut).2 ∧
       RecAction.sysExit 0
         ∈ (signal_handler recordingState ProcStopBehavior.timesOut).2)) :=
  ⟨rfl, C5_shutdown_stops_recording recordingState ProcStopBehavior.timesOut
     42 rfl⟩

/-- C6 counterexample: `get_status` is not a pure read of the recorder's
state — called twice on the identical state it can return different
snapshots, because it performs a fresh status query whose outcome enters
the result. -/
theorem C6_counterexample_not_pure_read :
    (get_status initState ApiResponse.requestError).1
      ≠ (get_status initState liveResp).1 := by
  decide

/-- C6 (amended): `get_status` mutates no recorder state (the state it
returns is unchanged) and computes the recording status, liveness flag
and the rest of the snapshot from the current state; but it is not a
pure read of cached state: it performs a fresh `get_live_info` query per
call, whose outcome determines the live-status fields, so snapshots of
the same state can differ. -/
theorem C6_amended_get_status (st : RecState) (resp : ApiResponse) :
    (get_status st resp).2 = st ∧
    (get_status st resp).1.live_status = (get_live_info resp).1 ∧
    (get_status st resp).1.recording_status
      = st.recording_info.status.getD idleStr ∧
    (get_status st resp).1.is_recording
      = st.current_recording_process.isSome ∧
    (get_status st resp).1.retry_count = st.retry_count ∧
    (get_status st ApiResponse.requestError).1
      ≠ (get_status st liveResp).1 := by
  refine ⟨rfl, rfl, rfl, rfl, rfl, ?_⟩
  intro hEq
  have hfield := congrArg StatusSnapshot.live_status hEq
  simp [get_status, get_live_info, liveResp] at hfield
